import Mathlib

/-!
Verification of the filter/aggregation pipeline of the Kosovo Municipality
Complaints dashboard (`streamlit-app/app.py`).

The dashboard loads a CSV of complaint records, derives a boolean row mask
from the sidebar widgets (a closed date interval, a category multiselect and
a municipality multiselect, each with a select-all checkbox), filters the
table by the mask, and computes aggregate metrics over the filtered rows.
The embedding below models the table as a `List Record`, dates as `Int`
(day ordinals: only their order matters to the mask), and the numeric
`severity_score` column as `ℚ`.
-/

namespace ComplaintsDashboard

/-- A row of `sample_data.csv` after `load_data` has parsed the `date`
column (`pd.to_datetime`).  The columns used by the app are `date`,
`category`, `municipality`, `severity_score` and `complaint_en`. -/
structure Record where
  date : Int
  category : String
  municipality : String
  severity_score : ℚ
  complaint_en : String
deriving DecidableEq, Repr

/-- Failure of the initial file read: `pd.read_csv("sample_data.csv")`
raises when the file is missing. -/
inductive LoadError where
  | fileNotFound
deriving DecidableEq, Repr

/-- `pd.read_csv("sample_data.csv")`: the input file is either absent
(`none`, the read raises) or present with its parsed rows. -/
def read_csv (file : Option (List Record)) : Except LoadError (List Record) :=
  match file with
  | none => Except.error LoadError.fileNotFound
  | some rows => Except.ok rows

/-- `load_data` (app.py lines 93-97): reads the CSV and converts the `date`
column with `pd.to_datetime` (a representation change that the embedding
collapses, dates being already `Int` in `Record`).  There is no exception
handler around the read: a raised `FileNotFoundError` propagates. -/
def load_data (file : Option (List Record)) : Except LoadError (List Record) :=
  match read_csv file with
  | Except.error e => Except.error e
  | Except.ok df => Except.ok df

/-- `all_categories = sorted(df['category'].unique())` (app.py line 118). -/
def all_categories (df : List Record) : List String :=
  ((df.map Record.category).dedup).mergeSort (fun a b => decide (a ≤ b))

/-- `all_municipalities = sorted(df['municipality'].unique())` (app.py line 129). -/
def all_municipalities (df : List Record) : List String :=
  ((df.map Record.municipality).dedup).mergeSort (fun a b => decide (a ≤ b))

/-- `df['date'].min()` over the loaded table (`NaT`, i.e. `none`, when the
table is empty). -/
def date_min (df : List Record) : Option Int :=
  (df.map Record.date).min?

/-- `df['date'].max()` over the loaded table. -/
def date_max (df : List Record) : Option Int :=
  (df.map Record.date).max?

/-- The boolean row mask (app.py lines 140-145):

`(df['date'].dt.date >= date_range[0]) & (df['date'].dt.date <= date_range[1])
 & (df['category'].isin(categories)) & (df['municipality'].isin(municipalities))`. -/
def mask (start_date end_date : Int) (categories municipalities : List String)
    (r : Record) : Bool :=
  decide (start_date ≤ r.date) && decide (r.date ≤ end_date) &&
    categories.contains r.category && municipalities.contains r.municipality

/-- `filtered_df = df[mask]` (app.py line 146). -/
def filtered_df (df : List Record) (start_date end_date : Int)
    (categories municipalities : List String) : List Record :=
  df.filter (mask start_date end_date categories municipalities)

/-- `len(filtered_df)` (app.py line 151). -/
def total_complaints (fd : List Record) : Nat :=
  fd.length

/-- The `severity_score` column of a (filtered) table. -/
def severity_scores (fd : List Record) : List ℚ :=
  fd.map Record.severity_score

/-- `filtered_df['severity_score'].mean()` (app.py line 153): the sum of the
column divided by the row count; `NaN` (modelled `none`) on an empty table. -/
def mean_severity (fd : List Record) : Option ℚ :=
  if fd.length = 0 then none
  else some ((severity_scores fd).sum / (fd.length : ℚ))

/-- `high_severity = len(filtered_df[filtered_df['severity_score'] >= 7])`
(app.py line 156). -/
def high_severity (fd : List Record) : Nat :=
  (fd.filter (fun r => decide ((7 : ℚ) ≤ r.severity_score))).length

/-- `municipalities_count = filtered_df['municipality'].nunique()`
(app.py line 159). -/
def municipalities_count (fd : List Record) : Nat :=
  (fd.map Record.municipality).dedup.length

/-- A concrete record used to instantiate hypotheses of the theorems below. -/
def r0 : Record :=
  { date := 0, category := "Waste", municipality := "Pristina",
    severity_score := 5, complaint_en := "overflowing bins" }

/-- A second concrete record, on a later date and another municipality. -/
def r1 : Record :=
  { date := 3, category := "Roads", municipality := "Prizren",
    severity_score := 8, complaint_en := "potholes" }

/-- C1: a record of the loaded table is in the filtered set iff its date lies
in the closed interval, its category is accepted and its municipality is
accepted. -/
theorem mem_filtered_df_iff (df : List Record) (s e : Int)
    (cats muns : List String) (r : Record) (hr : r ∈ df) :
    r ∈ filtered_df df s e cats muns ↔
      s ≤ r.date ∧ r.date ≤ e ∧ r.category ∈ cats ∧ r.municipality ∈ muns := by
  simp [filtered_df, List.mem_filter, mask, hr, List.elem_iff, and_assoc]

/-- Witness for C1 at a concrete table and filter selection. -/
theorem mem_filtered_df_iff_witness :
    r0 ∈ filtered_df [r0] 0 1 ["Waste"] ["Pristina"] ↔
      0 ≤ r0.date ∧ r0.date ≤ 1 ∧ r0.category ∈ ["Waste"] ∧
        r0.municipality ∈ ["Pristina"] :=
  mem_filtered_df_iff [r0] 0 1 ["Waste"] ["Pristina"] r0 (List.Mem.head _)

/-- C4: the filtered table is a sublist (subsequence) of the loaded table:
every filtered record occurs in the loaded table, and filtering neither
duplicates nor synthesizes records. -/
theorem filtered_df_sublist (df : List Record) (s e : Int)
    (cats muns : List String) :
    (filtered_df df s e cats muns).Sublist df ∧
      ∀ r ∈ filtered_df df s e cats muns, r ∈ df :=
  ⟨List.filter_sublist df, fun _ hr => (List.mem_filter.mp hr).1⟩

/-- C10: with an empty accepted-category set (select-all off, nothing
chosen), or an empty accepted-municipality set, the filtered table is empty
whatever the table, the date interval and the other label filter. -/
theorem filtered_df_empty_selection (df : List Record) (s e : Int)
    (cats muns : List String) :
    filtered_df df s e [] muns = [] ∧ filtered_df df s e cats [] = [] := by
  constructor <;>
    · apply List.filter_eq_nil_iff.mpr
      intro r _hr
      simp [mask]

/-- C3: filtering with both select-all toggles set (which substitutes
`all_categories` and `all_municipalities`) and the date interval running
from the table's minimum date to its maximum date returns the table
unchanged. -/
theorem filtered_df_full_selection (df : List Record) (d0 d1 : Int)
    (h0 : date_min df = some d0) (h1 : date_max df = some d1) :
    filtered_df df d0 d1 (all_categories df) (all_municipalities df) = df := by
  unfold date_min at h0
  unfold date_max at h1
  apply List.filter_eq_self.mpr
  intro r hr
  have hd0 : ∀ b ∈ df.map Record.date, d0 ≤ b :=
    (List.le_min?_iff (fun _ _ _ => le_min_iff) h0).mp le_rfl
  have hd1 : ∀ b ∈ df.map Record.date, b ≤ d1 :=
    (List.max?_le_iff (fun _ _ _ => max_le_iff) h1).mp le_rfl
  have hcat : r.category ∈ all_categories df := by
    unfold all_categories
    rw [List.mem_mergeSort, List.mem_dedup]
    exact List.mem_map_of_mem Record.category hr
  have hmun : r.municipality ∈ all_municipalities df := by
    unfold all_municipalities
    rw [List.mem_mergeSort, List.mem_dedup]
    exact List.mem_map_of_mem Record.municipality hr
  simp [mask, hd0 _ (List.mem_map_of_mem Record.date hr),
    hd1 _ (List.mem_map_of_mem Record.date hr), List.elem_iff, hcat, hmun]

/-- Witness for C3 at a concrete two-row table. -/
theorem filtered_df_full_selection_witness :
    date_min [r0, r1] = some 0 ∧ date_max [r0, r1] = some 3 ∧
      filtered_df [r0, r1] 0 3 (all_categories [r0, r1])
        (all_municipalities [r0, r1]) = [r0, r1] :=
  ⟨by decide, by decide,
    filtered_df_full_selection [r0, r1] 0 3 (by decide) (by decide)⟩

/-- C5: when the filtered table is non-empty, its mean severity lies between
the minimum and the maximum of its severity scores. -/
theorem mean_severity_between (fd : List Record) (m lo hi : ℚ)
    (hm : mean_severity fd = some m)
    (hlo : (severity_scores fd).min? = some lo)
    (hhi : (severity_scores fd).max? = some hi) :
    lo ≤ m ∧ m ≤ hi := by
  unfold mean_severity at hm
  by_cases hfd : fd.length = 0
  · simp [hfd] at hm
  · simp only [hfd, if_neg, reduceIte] at hm
    have hn : (0 : ℚ) < (fd.length : ℚ) := by
      exact_mod_cast Nat.pos_of_ne_zero hfd
    have hlo' : ∀ b ∈ severity_scores fd, lo ≤ b :=
      (List.le_min?_iff (fun _ _ _ => le_min_iff) hlo).mp le_rfl
    have hhi' : ∀ b ∈ severity_scores fd, b ≤ hi :=
      (List.max?_le_iff (fun _ _ _ => max_le_iff) hhi).mp le_rfl
    have hlen : (severity_scores fd).length = fd.length :=
      List.length_map _ _
    have hsum_lo : (fd.length : ℚ) * lo ≤ (severity_scores fd).sum := by
      have := List.card_nsmul_le_sum (severity_scores fd) lo hlo'
      rwa [hlen, nsmul_eq_mul] at this
    have hsum_hi : (severity_scores fd).sum ≤ (fd.length : ℚ) * hi := by
      have := List.sum_le_card_nsmul (severity_scores fd) hi hhi'
      rwa [hlen, nsmul_eq_mul] at this
    rw [Option.some_inj] at hm
    subst hm
    constructor
    · rw [le_div_iff₀ hn, mul_comm]
      exact hsum_lo
    · rw [div_le_iff₀ hn, mul_comm]
      exact hsum_hi

/-- Witness for C5 on a concrete two-row filtered table. -/
theorem mean_severity_between_witness :
    mean_severity [r0, r1] = some (13 / 2) ∧
      (severity_scores [r0, r1]).min? = some 5 ∧
      (severity_scores [r0, r1]).max? = some 8 ∧
      (5 ≤ (13 : ℚ) / 2 ∧ (13 : ℚ) / 2 ≤ 8) :=
  ⟨by norm_num [mean_severity, severity_scores, r0, r1], by decide, by decide,
    mean_severity_between [r0, r1] (13 / 2) 5 8
      (by norm_num [mean_severity, severity_scores, r0, r1]) (by decide)
      (by decide)⟩

/-- C6: on an empty filtered table every aggregate is defined: the count is
0, the mean severity is NaN (`none`), the high-severity count is 0 and the
distinct-municipality count is 0. -/
theorem empty_filtered_aggregates (df : List Record) (s e : Int)
    (cats muns : List String)
    (h : filtered_df df s e cats muns = []) :
    total_complaints (filtered_df df s e cats muns) = 0 ∧
      mean_severity (filtered_df df s e cats muns) = none ∧
      high_severity (filtered_df df s e cats muns) = 0 ∧
      municipalities_count (filtered_df df s e cats muns) = 0 := by
  rw [h]
  exact ⟨rfl, rfl, rfl, rfl⟩

/-- Witness for C6 at a concrete empty filtered table. -/
theorem empty_filtered_aggregates_witness :
    filtered_df [r0] 0 3 [] [] = [] ∧
      (total_complaints (filtered_df [r0] 0 3 [] []) = 0 ∧
        mean_severity (filtered_df [r0] 0 3 [] []) = none ∧
        high_severity (filtered_df [r0] 0 3 [] []) = 0 ∧
        municipalities_count (filtered_df [r0] 0 3 [] []) = 0) :=
  ⟨by decide, empty_filtered_aggregates [r0] 0 3 [] [] (by decide)⟩

/-- C2 counterexample: with the input file missing, `load_data` does not
return the empty table (it raises). -/
theorem load_data_missing_not_ok_empty :
    load_data none ≠ Except.ok ([] : List Record) := by
  simp [load_data, read_csv]

/-- C2 amended: with the input file missing, `load_data` propagates the
file-not-found failure instead of substituting an empty table. -/
theorem load_data_missing_propagates :
    load_data none = Except.error LoadError.fileNotFound := rfl

/-- The spec's literal reading of the high-severity metric: the count of
records whose severity score is strictly above the threshold 7 ("count
above a fixed threshold (7)"). -/
def high_severity_above_spec (fd : List Record) : Nat :=
  (fd.filter (fun r => decide ((7 : ℚ) < r.severity_score))).length

/-- The spec-side high-severity count with the threshold read inclusively:
records whose severity score is at least 7. -/
def high_severity_at_least_spec (fd : List Record) : Nat :=
  ((severity_scores fd).filter (fun s => decide ((7 : ℚ) ≤ s))).length

/-- A record whose severity score sits exactly on the threshold. -/
def r7 : Record :=
  { date := 1, category := "Water", municipality := "Peja",
    severity_score := 7, complaint_en := "low pressure" }

/-- C7 counterexample: on a table holding one record of severity exactly 7,
the code's high-severity count (which uses `>= 7`) differs from the count of
records strictly above 7. -/
theorem high_severity_ne_above_spec :
    high_severity [r7] ≠ high_severity_above_spec [r7] := by decide

/-- C7 amended: the high-severity aggregate equals the count of records
whose severity score is at least 7 (threshold inclusive). -/
theorem high_severity_eq_at_least_spec (fd : List Record) :
    high_severity fd = high_severity_at_least_spec fd := by
  unfold high_severity high_severity_at_least_spec severity_scores
  rw [List.filter_map, List.length_map]
  rfl

/-- A chat message: a role (`"system"`, `"user"` or `"assistant"`) and a
text content, as used both for `st.session_state.messages` and for the
`messages` list of `client.chat.completions.create`. -/
structure ChatMsg where
  role : String
  content : String
deriving DecidableEq, Repr

/-- `', '.join(filtered_df['category'].unique())` (app.py line 436). -/
def categories_line (fd : List Record) : String :=
  String.intercalate ", " ((fd.map Record.category).dedup)

/-- `', '.join(filtered_df['municipality'].unique())` (app.py line 437). -/
def municipalities_line (fd : List Record) : String :=
  String.intercalate ", " ((fd.map Record.municipality).dedup)

/-- The `context` f-string (app.py lines 432-442).  The scalar renderings
performed by Python string interpolation (`str` on dates, `str` on ints,
the `:.2f` float format, and `DataFrame.to_string` for the row dump) are
taken as parameters: the claims under verification concern which values are
interpolated and how the pieces are concatenated, not Python's digit
formatting. -/
def context (showDate : Int → String) (showNat : Nat → String)
    (showMean : Option ℚ → String) (dumpRows : List Record → String)
    (start_date end_date : Int) (fd : List Record) : String :=
  "\n        Analysis context:\n        - Time period: " ++ showDate start_date
    ++ " to " ++ showDate end_date
    ++ "\n        - Total complaints: " ++ showNat (total_complaints fd)
    ++ "\n        - Categories: " ++ categories_line fd
    ++ "\n        - Municipalities: " ++ municipalities_line fd
    ++ "\n        - Average severity: " ++ showMean (mean_severity fd)
    ++ "\n        \n        Detailed complaints:\n        " ++ dumpRows fd
    ++ "\n        "

/-- The system instruction sent with every request (app.py lines 450-452). -/
def system_content : String :=
  "You are an analyst for the Kosovo Municipality Complaints system.\n                         Analyze the provided complaints data and answer questions clearly and concisely.\n                         Focus on providing actionable insights and clear patterns in the data."

/-- The user message of the request:
`f"Based on this data:\n{context}\n\nQuestion: {prompt}"` (app.py line 453). -/
def user_content (ctx prompt : String) : String :=
  "Based on this data:\n" ++ ctx ++ "\n\nQuestion: " ++ prompt

/-- The `messages` list passed to `client.chat.completions.create`
(app.py lines 449-454). -/
def request_messages (ctx prompt : String) : List ChatMsg :=
  [{ role := "system", content := system_content },
   { role := "user", content := user_content ctx prompt }]

/-- `st.session_state.messages.append({"role": "user", "content": prompt})`
(app.py line 425). -/
def push_user (ms : List ChatMsg) (prompt : String) : List ChatMsg :=
  ms ++ [{ role := "user", content := prompt }]

/-- `st.session_state.messages.append({"role": "assistant", "content":
response_content})` (app.py line 461), where `response_content` is the raw
`response.choices[0].message.content` text. -/
def push_assistant (ms : List ChatMsg) (response_content : String) : List ChatMsg :=
  ms ++ [{ role := "assistant", content := response_content }]

/-- `s` contains `t` verbatim: `s` splits as `a ++ t ++ b`. -/
def ContainsStr (s t : String) : Prop :=
  ∃ a b, s = a ++ t ++ b

/-- Containment is preserved by prepending. -/
theorem containsStr_append_left (s : String) {t u : String}
    (h : ContainsStr t u) : ContainsStr (s ++ t) u := by
  obtain ⟨a, b, rfl⟩ := h
  exact ⟨s ++ a, b, by simp [String.append_assoc]⟩

/-- Containment is preserved by appending. -/
theorem containsStr_append_right {s u : String} (t : String)
    (h : ContainsStr s u) : ContainsStr (s ++ t) u := by
  obtain ⟨a, b, rfl⟩ := h
  exact ⟨a, b ++ t, by simp [String.append_assoc]⟩

/-- Every string contains itself. -/
theorem containsStr_refl (s : String) : ContainsStr s s :=
  ⟨"", "", by simp⟩

/-- C8: the context block contains, verbatim, the rendered date-range
bounds, the total complaint count, the category line, the municipality
line, the rendered mean severity and the full row dump; the user message
sent to the chat-completion API is the context block and the user's
question concatenated verbatim; the request carries exactly the system
instruction and that user message; and the chat history stores the user's
question and the raw response text unmodified. -/
theorem context_block_and_chat_roundtrip
    (showDate : Int → String) (showNat : Nat → String)
    (showMean : Option ℚ → String) (dumpRows : List Record → String)
    (d0 d1 : Int) (fd : List Record) (prompt response_content : String)
    (ms : List ChatMsg) :
    ContainsStr (context showDate showNat showMean dumpRows d0 d1 fd)
      (showDate d0) ∧
    ContainsStr (context showDate showNat showMean dumpRows d0 d1 fd)
      (showDate d1) ∧
    ContainsStr (context showDate showNat showMean dumpRows d0 d1 fd)
      (showNat (total_complaints fd)) ∧
    ContainsStr (context showDate showNat showMean dumpRows d0 d1 fd)
      (categories_line fd) ∧
    ContainsStr (context showDate showNat showMean dumpRows d0 d1 fd)
      (municipalities_line fd) ∧
    ContainsStr (context showDate showNat showMean dumpRows d0 d1 fd)
      (showMean (mean_severity fd)) ∧
    ContainsStr (context showDate showNat showMean dumpRows d0 d1 fd)
      (dumpRows fd) ∧
    ContainsStr
      (user_content (context showDate showNat showMean dumpRows d0 d1 fd) prompt)
      (context showDate showNat showMean dumpRows d0 d1 fd) ∧
    ContainsStr
      (user_content (context showDate showNat showMean dumpRows d0 d1 fd) prompt)
      prompt ∧
    (request_messages (context showDate showNat showMean dumpRows d0 d1 fd)
        prompt).map ChatMsg.content =
      [system_content,
        user_content (context showDate showNat showMean dumpRows d0 d1 fd) prompt] ∧
    push_assistant (push_user ms prompt) response_content =
      ms ++ [{ role := "user", content := prompt },
             { role := "assistant", content := response_content }] ∧
    (push_assistant (push_user ms prompt) response_content).getLast? =
      some { role := "assistant", content := response_content } := by
  refine ⟨?_, ?_, ?_, ?_, ?_, ?_, ?_, ?_, ?_, rfl,
    by simp [push_user, push_assistant],
    by simp [push_user, push_assistant, List.getLast?_concat]⟩
  all_goals
    simp only [context, user_content]
    repeat first
      | exact containsStr_append_left _ (containsStr_refl _)
      | apply containsStr_append_right

end ComplaintsDashboard
